import Mathlib

/-!
Verification of the extraction engine of a static source-code analyzer.

The embedded code comes from four Python modules:
  * `skills/dfd-analyzer/scripts/analyze_project.py` (class `JavaProjectAnalyzer`)
  * `skills/event-doc-generator/scripts/scan_events.py` (class `EventScanner`)
  * `skills/event-doc-generator/scripts/analyze_publishers.py` (class `PublisherAnalyzer`)
  * `skills/event-doc-generator/scripts/analyze_listeners.py` (class `ListenerAnalyzer`)

Strings are embedded as `List Char`.  The Python code drives everything with
`re.search` / `re.findall` / `re.finditer`, so we first build a small,
fuel-based backtracking regular-expression engine whose outcome order is the
backtracking priority order of Python's `re` module (leftmost start wins,
greedy quantifiers prefer longer, lazy quantifiers prefer shorter, the left
alternative is preferred).  Every definition is structurally recursive so that
closed instances evaluate inside the kernel.
-/

namespace SpecProof

/-- Strings of the analyzed program, as plain character lists. -/
abbrev Str := List Char

/-- Turn a Lean string literal into a `Str`. -/
def str (st : String) : Str := st.data

/-- Python `\w` on ASCII input: letters, digits, underscore. -/
def isWordChar (c : Char) : Bool := c.isAlphanum || c == '_'

/-- Python `\s` on ASCII input: space, tab, newline, carriage return,
vertical tab, form feed. -/
def isSpaceChar (c : Char) : Bool :=
  c == ' ' || c == '\t' || c == '\n' || c == '\r' ||
  c == Char.ofNat 11 || c == Char.ofNat 12

/-- Python `str.strip()`: remove leading and trailing whitespace. -/
def pyStrip (s : Str) : Str :=
  ((s.dropWhile isSpaceChar).reverse.dropWhile isSpaceChar).reverse

/-- Worker for `pySplitWs`; `cur` is the current chunk, reversed. -/
def pySplitWsGo (cur : Str) : Str → List Str
  | [] => if cur.isEmpty then [] else [cur.reverse]
  | c :: cs =>
    if isSpaceChar c then
      if cur.isEmpty then pySplitWsGo [] cs else cur.reverse :: pySplitWsGo [] cs
    else pySplitWsGo (c :: cur) cs

/-- Python `str.split()` with no argument: split on whitespace runs,
dropping empty chunks. -/
def pySplitWs (s : Str) : List Str := pySplitWsGo [] s

/-- Worker for `splitOnChar`; `cur` is the current chunk, reversed. -/
def splitOnCharGo (sep : Char) (cur : Str) : Str → List Str
  | [] => [cur.reverse]
  | c :: cs =>
    if c == sep then cur.reverse :: splitOnCharGo sep [] cs
    else splitOnCharGo sep (c :: cur) cs

/-- Python `str.split(sep)` for a one-character separator: keeps empty
chunks, and the empty string yields `[[]]`. -/
def splitOnChar (sep : Char) (s : Str) : List Str := splitOnCharGo sep [] s

/-- Python `content.split('\n')`. -/
def splitLines (s : Str) : List Str := splitOnChar '\n' s

/-- Python `needle in hay` for strings: substring test. -/
def containsSub (hay needle : Str) : Bool :=
  hay.tails.any fun t => needle.isPrefixOf t

/-- Python `str.capitalize()`: first character upper-cased, the rest
lower-cased (ASCII). -/
def pyCapitalize : Str → Str
  | [] => []
  | c :: cs => c.toUpper :: cs.map Char.toLower

/-- Python `str.lower()` (ASCII). -/
def pyLower (s : Str) : Str := s.map Char.toLower

/-- Worker for `pyDistinct`. -/
def pyDistinctGo (seen : List Str) : List Str → List Str
  | [] => []
  | x :: xs =>
    if seen.contains x then pyDistinctGo seen xs
    else x :: pyDistinctGo (x :: seen) xs

/-- Model of Python `list(set(xs))` for string lists.  CPython's iteration
order over a set is hash-based and varies between interpreter runs; we model
it deterministically as deduplication keeping first occurrences.  No theorem
below depends on the chosen order. -/
def pyDistinct (xs : List Str) : List Str := pyDistinctGo [] xs

/-- Python `' '.join xs`. -/
def joinSpace (xs : List Str) : Str := List.intercalate (str " ") xs

/-- Python `'\n'.join xs`. -/
def joinNl (xs : List Str) : Str := List.intercalate (str "\n") xs

/-! ### A small backtracking regex engine

`Pat` covers exactly the constructs used by the analyzed regexes: character
classes, literals, concatenation, prioritized alternation, greedy and lazy
repetition, and numbered capture groups. -/

inductive Pat where
  | eps : Pat
  | cls (p : Char → Bool) : Pat
  | seq (a b : Pat) : Pat
  | alt (a b : Pat) : Pat
  | rep (a : Pat) (lazyRep : Bool) : Pat
  | grp (n : Nat) (a : Pat) : Pat

/-- Capture environment: pairs of group number and captured text, in capture
order. -/
abbrev REnv := List (Nat × Str)

/-- Literal string pattern. -/
def Pat.lit : Str → Pat
  | [] => .eps
  | c :: cs => .seq (.cls fun d => d == c) (Pat.lit cs)

/-- `x+` (greedy). -/
def Pat.plus (a : Pat) : Pat := .seq a (.rep a false)

/-- `x*` (greedy). -/
def Pat.star (a : Pat) : Pat := .rep a false

/-- `x*?` (lazy). -/
def Pat.lazyStar (a : Pat) : Pat := .rep a true

/-- `x?` (greedy: the present branch is preferred). -/
def Pat.opt (a : Pat) : Pat := .alt a .eps

/-- Prioritized alternation of a list of branches (leftmost preferred). -/
def Pat.alts : List Pat → Pat
  | [] => .cls fun _ => false
  | [a] => a
  | a :: rest => .alt a (Pat.alts rest)

/-- `.` under `re.DOTALL`: any character. -/
def Pat.anyChar : Pat := .cls fun _ => true

/-- `.` without `re.DOTALL`: any character except newline. -/
def Pat.anyNoNl : Pat := .cls fun c => !(c == '\n')

/-- Size measure used only to compute a sufficient fuel bound. -/
def Pat.psize : Pat → Nat
  | .eps => 1
  | .cls _ => 1
  | .seq a b => a.psize + b.psize + 1
  | .alt a b => a.psize + b.psize + 1
  | .rep a _ => a.psize + 1
  | .grp _ a => a.psize + 1

/-- All ways to match `p` against a prefix of `s`, as `(captures, rest)`
pairs listed in Python's backtracking priority order.  A repetition never
takes an empty iteration (none of the embedded regexes repeats a nullable
subpattern).  Every recursive call strictly decreases
`input length + pattern size`, so fuel `s.length + p.psize + 1` is never
exhausted; `runP` is structural in the fuel so that closed instances reduce
in the kernel. -/
def runP : Nat → Pat → Str → List (REnv × Str)
  | 0, _, _ => []
  | _ + 1, .eps, s => [([], s)]
  | _ + 1, .cls _, [] => []
  | _ + 1, .cls p, c :: cs => if p c then [([], cs)] else []
  | fuel + 1, .seq a b, s =>
    (runP fuel a s).flatMap fun er =>
      (runP fuel b er.2).map fun er2 => (er.1 ++ er2.1, er2.2)
  | fuel + 1, .alt a b, s => runP fuel a s ++ runP fuel b s
  | fuel + 1, .rep a lazyRep, s =>
    let step :=
      (runP fuel a s).flatMap fun er =>
        if er.2.length < s.length then
          (runP fuel (.rep a lazyRep) er.2).map fun er2 => (er.1 ++ er2.1, er2.2)
        else []
    if lazyRep then ([], s) :: step else step ++ [([], s)]
  | fuel + 1, .grp n a, s =>
    (runP fuel a s).map fun er =>
      (er.1 ++ [(n, s.take (s.length - er.2.length))], er.2)

/-- All outcomes of matching `p` at the very start of `s`. -/
def matchAt (p : Pat) (s : Str) : List (REnv × Str) :=
  runP (s.length + p.psize + 1) p s

/-- `re.search`: leftmost match of `p` in `s`, returning
`(start index, captures, match length)`. -/
def reSearchGo (p : Pat) (i : Nat) : Str → Option (Nat × REnv × Nat)
  | [] =>
    match (matchAt p []).head? with
    | some er => some (i, er.1, 0)
    | none => none
  | c :: rest =>
    match (matchAt p (c :: rest)).head? with
    | some er => some (i, er.1, (c :: rest).length - er.2.length)
    | none => reSearchGo p (i + 1) rest

/-- `re.search`, captures only. -/
def reSearch (p : Pat) (s : Str) : Option REnv :=
  (reSearchGo p 0 s).map fun r => r.2.1

/-- `match.group n`: the last text captured by group `n` (empty if none). -/
def reGroup (env : REnv) (n : Nat) : Str :=
  (((env.filter fun e => e.1 == n).getLast?).map fun e => e.2).getD []

/-- Worker for `reFindAll`; the fuel starts at `s.length + 1` and a character
is consumed at every step, so it is never exhausted. -/
def reFindGo (p : Pat) : Nat → Str → List REnv
  | 0, _ => []
  | _ + 1, [] =>
    match (matchAt p []).head? with
    | some er => [er.1]
    | none => []
  | fuel + 1, c :: rest =>
    match (matchAt p (c :: rest)).head? with
    | some er =>
      let consumed := (c :: rest).length - er.2.length
      if consumed == 0 then er.1 :: reFindGo p fuel rest
      else er.1 :: reFindGo p fuel er.2
    | none => reFindGo p fuel rest

/-- `re.findall` / `re.finditer`: non-overlapping leftmost matches, scanning
left to right and resuming after each match. -/
def reFindAll (p : Pat) (s : Str) : List REnv :=
  reFindGo p (s.length + 1) s

/-- Shorthand: character-class pattern. -/
def pcls (p : Char → Bool) : Pat := .cls p

/-- `\w+`. -/
def pWordPlus : Pat := Pat.plus (pcls isWordChar)

/-- `\s+`. -/
def pWsPlus : Pat := Pat.plus (pcls isSpaceChar)

/-- `\s*`. -/
def pWsStar : Pat := Pat.star (pcls isSpaceChar)

/-- Sequence of a list of patterns. -/
def pseq : List Pat → Pat
  | [] => .eps
  | [a] => a
  | a :: rest => .seq a (pseq rest)

/-! ## `skills/dfd-analyzer/scripts/analyze_project.py` — `JavaProjectAnalyzer`

The analyzer keeps four mutable lists (`external_entities`, `processes`,
`data_stores`, `data_flows`); we thread them as an explicit state value. -/

namespace Dfd

/-- Dataclass `ExternalEntity` of `analyze_project.py`. -/
structure ExternalEntity where
  name : Str
  etype : Str
  references : List Str
deriving DecidableEq, Repr

/-- Dataclass `Process` of `analyze_project.py`. -/
structure Process where
  name : Str
  className : Str
  filePath : Str
  ptype : Str
  methods : List Str
  dependencies : List Str
deriving DecidableEq, Repr

/-- Dataclass `DataStore` of `analyze_project.py`. -/
structure DataStore where
  name : Str
  dtype : Str
  entityClass : Str
  filePath : Str
deriving DecidableEq, Repr

/-- Dataclass `DataFlow` of `analyze_project.py`. -/
structure DataFlow where
  fromComponent : Str
  toComponent : Str
  dataType : Str
  flowType : Str
deriving DecidableEq, Repr

/-- The accumulating lists of `JavaProjectAnalyzer`. -/
structure AnalyzerState where
  externalEntities : List ExternalEntity
  processes : List Process
  dataStores : List DataStore
  dataFlows : List DataFlow
deriving DecidableEq, Repr

/-- Regex `public\s+(?:class|interface)\s+(\w+)` of `_analyze_file`. -/
def publicClassPat : Pat :=
  pseq [Pat.lit (str "public"), pWsPlus,
    Pat.alts [Pat.lit (str "class"), Pat.lit (str "interface")], pWsPlus,
    .grp 1 pWordPlus]

/-- `re.search(r'@RestController|@Controller', content)` as a Boolean. -/
def hasControllerMarker (content : Str) : Bool :=
  (reSearch (Pat.alts [Pat.lit (str "@RestController"), Pat.lit (str "@Controller")]) content).isSome

/-- `re.search(r'@Service', content)` as a Boolean. -/
def hasServiceMarker (content : Str) : Bool :=
  (reSearch (Pat.lit (str "@Service")) content).isSome

/-- `re.search(r'@Repository', content)` as a Boolean. -/
def hasRepositoryMarker (content : Str) : Bool :=
  (reSearch (Pat.lit (str "@Repository")) content).isSome

/-- `re.search(r'@Entity|@Table', content)` as a Boolean. -/
def hasEntityMarker (content : Str) : Bool :=
  (reSearch (Pat.alts [Pat.lit (str "@Entity"), Pat.lit (str "@Table")]) content).isSome

/-- `re.search(r'@FeignClient|@RestTemplate', content)` as a Boolean. -/
def hasExternalClientMarker (content : Str) : Bool :=
  (reSearch (Pat.alts [Pat.lit (str "@FeignClient"), Pat.lit (str "@RestTemplate")]) content).isSome

/-- Regex `@(?:Get|Post|Put|Delete|Patch)Mapping.*?\n.*?public\s+\w+\s+(\w+)\s*\(`
(compiled with `re.DOTALL`) of `_analyze_controller`. -/
def ctrlMethodPat : Pat :=
  pseq [Pat.lit (str "@"),
    Pat.alts [Pat.lit (str "Get"), Pat.lit (str "Post"), Pat.lit (str "Put"),
      Pat.lit (str "Delete"), Pat.lit (str "Patch")],
    Pat.lit (str "Mapping"), Pat.lazyStar Pat.anyChar, Pat.lit (str "\n"),
    Pat.lazyStar Pat.anyChar, Pat.lit (str "public"), pWsPlus, pWordPlus, pWsPlus,
    .grp 1 pWordPlus, pWsStar, Pat.lit (str "(")]

/-- Regex `public\s+\w+\s+(\w+)\s*\(` of `_analyze_service`. -/
def pubMethodPat : Pat :=
  pseq [Pat.lit (str "public"), pWsPlus, pWordPlus, pWsPlus,
    .grp 1 pWordPlus, pWsStar, Pat.lit (str "(")]

/-- Regex `@Autowired.*?\n.*?private\s+(\w+)` (with `re.DOTALL`) used by both
`_analyze_controller` and `_analyze_service`. -/
def autowiredPat : Pat :=
  pseq [Pat.lit (str "@Autowired"), Pat.lazyStar Pat.anyChar, Pat.lit (str "\n"),
    Pat.lazyStar Pat.anyChar, Pat.lit (str "private"), pWsPlus, .grp 1 pWordPlus]

/-- Regex `(?:find|save|delete|update)\w+` of `_analyze_repository`; the
whole match is collected, hence the outer group 0. -/
def repoMethodPat : Pat :=
  .grp 0 (pseq [Pat.alts [Pat.lit (str "find"), Pat.lit (str "save"),
    Pat.lit (str "delete"), Pat.lit (str "update")], pWordPlus])

/-- Regex `@Table\(name\s*=\s*"(\w+)"` of `_analyze_entity`. -/
def tableNamePat : Pat :=
  pseq [Pat.lit (str "@Table(name"), pWsStar, Pat.lit (str "="), pWsStar,
    Pat.lit (str "\""), .grp 1 pWordPlus, Pat.lit (str "\"")]

/-- Regex `@FeignClient\(.*?url\s*=\s*"([^"]+)"` of `_analyze_external_client`
(no `re.DOTALL`, so `.` excludes newlines). -/
def feignUrlPat : Pat :=
  pseq [Pat.lit (str "@FeignClient("), Pat.lazyStar Pat.anyNoNl,
    Pat.lit (str "url"), pWsStar, Pat.lit (str "="), pWsStar, Pat.lit (str "\""),
    .grp 1 (Pat.plus (pcls fun c => !(c == '"'))), Pat.lit (str "\"")]

/-- Regex `@FeignClient\(.*?name\s*=\s*"([^"]+)"` of `_analyze_external_client`. -/
def feignNamePat : Pat :=
  pseq [Pat.lit (str "@FeignClient("), Pat.lazyStar Pat.anyNoNl,
    Pat.lit (str "name"), pWsStar, Pat.lit (str "="), pWsStar, Pat.lit (str "\""),
    .grp 1 (Pat.plus (pcls fun c => !(c == '"'))), Pat.lit (str "\"")]

/-- `JavaProjectAnalyzer._analyze_controller`. -/
def analyzeController (className content filePath : Str) (st : AnalyzerState) : AnalyzerState :=
  let methods := (reFindAll ctrlMethodPat content).map (reGroup · 1)
  let dependencies := (reFindAll autowiredPat content).map (reGroup · 1)
  let process : Process := ⟨className, className, filePath, str "controller", methods, dependencies⟩
  let st := { st with processes := st.processes ++ [process] }
  if (st.externalEntities.map (·.name)).contains className then st
  else { st with externalEntities := st.externalEntities ++
          [⟨str "API Client (" ++ className ++ str ")", str "client", [className]⟩] }

/-- `JavaProjectAnalyzer._analyze_service`; note the `[:10]` cap on methods. -/
def analyzeService (className content filePath : Str) (st : AnalyzerState) : AnalyzerState :=
  let methods := (reFindAll pubMethodPat content).map (reGroup · 1)
  let dependencies := (reFindAll autowiredPat content).map (reGroup · 1)
  let process : Process := ⟨className, className, filePath, str "service", methods.take 10, dependencies⟩
  { st with processes := st.processes ++ [process] }

/-- `JavaProjectAnalyzer._analyze_repository`; `list(set(...))` is modelled
by `pyDistinct`. -/
def analyzeRepository (className content filePath : Str) (st : AnalyzerState) : AnalyzerState :=
  let methods := (reFindAll repoMethodPat content).map (reGroup · 0)
  let process : Process := ⟨className, className, filePath, str "repository", pyDistinct methods, []⟩
  { st with processes := st.processes ++ [process] }

/-- `JavaProjectAnalyzer._analyze_entity`. -/
def analyzeEntity (className content filePath : Str) (st : AnalyzerState) : AnalyzerState :=
  let tableName := match reSearch tableNamePat content with
    | some env => reGroup env 1
    | none => pyLower className
  { st with dataStores := st.dataStores ++ [⟨tableName, str "database", className, filePath⟩] }

/-- `JavaProjectAnalyzer._analyze_external_client`. -/
def analyzeExternalClient (className content filePath : Str) (st : AnalyzerState) : AnalyzerState :=
  let urlMatch := reSearch feignUrlPat content
  let serviceName := reSearch feignNamePat content
  let name := match serviceName with
    | some env => reGroup env 1
    | none => match urlMatch with
      | some env => reGroup env 1
      | none => className
  { st with externalEntities := st.externalEntities ++ [⟨name, str "external_service", [className]⟩] }

/-- `JavaProjectAnalyzer._analyze_file`: class-declaration gate followed by
the priority-ordered `if/elif` marker dispatch.  A file whose text matches no
marker (or has no public class/interface declaration) leaves the state
unchanged. -/
def analyzeFile (st : AnalyzerState) (filePath content : Str) : AnalyzerState :=
  match reSearch publicClassPat content with
  | none => st
  | some env =>
    let className := reGroup env 1
    if hasControllerMarker content then analyzeController className content filePath st
    else if hasServiceMarker content then analyzeService className content filePath st
    else if hasRepositoryMarker content then analyzeRepository className content filePath st
    else if hasEntityMarker content then analyzeEntity className content filePath st
    else if hasExternalClientMarker content then analyzeExternalClient className content filePath st
    else st

/-- The Python dict `{p.class_name: p for p in self.processes}`: on duplicate
class names the later entry overwrites the earlier one, so lookup returns the
last matching process. -/
def lookupProcess (ps : List Process) (n : Str) : Option Process :=
  (ps.filter fun p => p.className == n).getLast?

/-- The flow-type decision inside `_infer_data_flows`: default `'request'`,
`controller → service` gives `'request'`, `service → repository` gives
`'query'`. -/
def flowTypeFor (ptype ttype : Str) : Str :=
  if ptype == str "controller" && ttype == str "service" then str "request"
  else if ptype == str "service" && ttype == str "repository" then str "query"
  else str "request"

/-- `JavaProjectAnalyzer._infer_data_flows`: one edge per dependency entry
whose name resolves in the process map. -/
def inferDataFlows (ps : List Process) : List DataFlow :=
  ps.flatMap fun p =>
    p.dependencies.filterMap fun dep =>
      (lookupProcess ps dep).map fun tgt =>
        ⟨p.className, tgt.className, str "business_data", flowTypeFor p.ptype tgt.ptype⟩

end Dfd

/-! ## `skills/event-doc-generator/scripts/scan_events.py` — `EventScanner` -/

namespace Scan

/-- Dataclass `FieldInfo` of `scan_events.py` (`annotations` defaults to `[]`). -/
structure FieldInfo where
  name : Str
  ftype : Str
  javadoc : Option Str
  annots : List Str
deriving DecidableEq, Repr

/-- Dataclass `EventInfo` of `scan_events.py`. -/
structure EventInfo where
  name : Str
  package : Str
  filePath : Str
  boundedContext : Str
  javadoc : Option Str
  fields : List FieldInfo
  extendsName : Option Str
  annots : List Str
  isRecord : Bool
deriving DecidableEq, Repr

/-- `EVENT_PATTERNS[0]`: `class\s+\w+Event\s+extends`. -/
def eventDeclPat1 : Pat :=
  pseq [Pat.lit (str "class"), pWsPlus, pWordPlus, Pat.lit (str "Event"),
    pWsPlus, Pat.lit (str "extends")]

/-- `EVENT_PATTERNS[1]`: `class\s+\w+Event\s+implements`. -/
def eventDeclPat2 : Pat :=
  pseq [Pat.lit (str "class"), pWsPlus, pWordPlus, Pat.lit (str "Event"),
    pWsPlus, Pat.lit (str "implements")]

/-- `EVENT_PATTERNS[2]`: `record\s+\w+Event\s*\(`. -/
def eventDeclPat3 : Pat :=
  pseq [Pat.lit (str "record"), pWsPlus, pWordPlus, Pat.lit (str "Event"),
    pWsStar, Pat.lit (str "(")]

/-- `EVENT_PATTERNS[3]`: `@DomainEvent`. -/
def eventDeclPat4 : Pat := Pat.lit (str "@DomainEvent")

/-- `EventScanner._is_event_class`: membership in any of the four
event-declaration shapes (a Boolean test, not a priority list). -/
def isEventClass (content : Str) : Bool :=
  [eventDeclPat1, eventDeclPat2, eventDeclPat3, eventDeclPat4].any fun p =>
    (reSearch p content).isSome

/-- `EventScanner._is_event_package`: case-insensitive path-segment filter. -/
def isEventPackage (path : Str) : Bool :=
  [str "/event/", str "/events/", str "domain/event", str "domain/events"].any fun pat =>
    containsSub (pyLower path) pat

/-- Regex `package\s+([\w.]+);` shared by all three event-side analyzers. -/
def packagePat : Pat :=
  pseq [Pat.lit (str "package"), pWsPlus,
    .grp 1 (Pat.plus (pcls fun c => isWordChar c || c == '.')), Pat.lit (str ";")]

/-- `_extract_package`: first match or the empty string. -/
def extractPackage (content : Str) : Str :=
  match reSearch packagePat content with
  | some env => reGroup env 1
  | none => []

/-- Regex `(?:public\s+)?(?:final\s+)?class\s+(\w+)` of `_extract_class_name`. -/
def classNamePat : Pat :=
  pseq [Pat.opt (.seq (Pat.lit (str "public")) pWsPlus),
    Pat.opt (.seq (Pat.lit (str "final")) pWsPlus),
    Pat.lit (str "class"), pWsPlus, .grp 1 pWordPlus]

/-- Regex `(?:public\s+)?record\s+(\w+)` of `_extract_class_name`. -/
def recordNamePat : Pat :=
  pseq [Pat.opt (.seq (Pat.lit (str "public")) pWsPlus),
    Pat.lit (str "record"), pWsPlus, .grp 1 pWordPlus]

/-- `EventScanner._extract_class_name`: try `class`, then `record`. -/
def extractClassName (content : Str) : Option Str :=
  match reSearch classNamePat content with
  | some env => some (reGroup env 1)
  | none => (reSearch recordNamePat content).map (reGroup · 1)

/-- Regex `(?:class|record)\s+{class_name}` locating the declaration. -/
def classDeclPat (className : Str) : Pat :=
  pseq [Pat.alts [Pat.lit (str "class"), Pat.lit (str "record")], pWsPlus,
    Pat.lit className]

/-- Regex `/\*\*(.*?)\*/` (with `re.DOTALL`). -/
def javadocPat : Pat :=
  pseq [Pat.lit (str "/**"), .grp 1 (Pat.lazyStar Pat.anyChar), Pat.lit (str "*/")]

/-- The per-line cleanup loop shared verbatim by `_extract_class_javadoc` and
`_extract_field_javadoc`: strip, drop one leading `*` and re-strip, keep
non-empty lines that do not start with `@`. -/
def cleanJavadocLines (txt : Str) : List Str :=
  (splitLines txt).filterMap fun line =>
    let line := pyStrip line
    let line := if (str "*").isPrefixOf line then pyStrip (line.drop 1) else line
    if !line.isEmpty && !((str "@").isPrefixOf line) then some line else none

/-- Last `/** ... */` block before a position, cleaned up and joined. -/
def lastJavadocBefore (before : Str) : Option Str :=
  match (reFindAll javadocPat before).getLast? with
  | some env => some (pyStrip (joinSpace (cleanJavadocLines (reGroup env 1))))
  | none => none

/-- `EventScanner._extract_class_javadoc`. -/
def extractClassJavadoc (content className : Str) : Option Str :=
  match reSearchGo (classDeclPat className) 0 content with
  | none => none
  | some r => lastJavadocBefore (content.take r.1)

/-- Character class `[\w<>,\s]` of the field regex. -/
def fieldTypeChar (c : Char) : Bool :=
  isWordChar c || c == '<' || c == '>' || c == ',' || isSpaceChar c

/-- Regex `private\s+(?:final\s+)?([\w<>,\s]+)\s+(\w+)\s*;` of
`_extract_fields` (non-record branch). -/
def fieldPat : Pat :=
  pseq [Pat.lit (str "private"), pWsPlus,
    Pat.opt (.seq (Pat.lit (str "final")) pWsPlus),
    .grp 1 (Pat.plus (pcls fieldTypeChar)), pWsPlus, .grp 2 pWordPlus,
    pWsStar, Pat.lit (str ";")]

/-- Regex `record\s+\w+\s*\((.*?)\)` (with `re.DOTALL`) of `_extract_fields`
(record branch). -/
def recordParamsPat : Pat :=
  pseq [Pat.lit (str "record"), pWsPlus, pWordPlus, pWsStar, Pat.lit (str "("),
    .grp 1 (Pat.lazyStar Pat.anyChar), Pat.lit (str ")")]

/-- Regex `(\w+)\s+{field_name}\s*;` of `_extract_field_javadoc`. -/
def fieldDeclPat (fieldName : Str) : Pat :=
  pseq [.grp 1 pWordPlus, pWsPlus, Pat.lit fieldName, pWsStar, Pat.lit (str ";")]

/-- `EventScanner._extract_field_javadoc`. -/
def extractFieldJavadoc (content fieldName : Str) : Option Str :=
  match reSearchGo (fieldDeclPat fieldName) 0 content with
  | none => none
  | some r => lastJavadocBefore (content.take r.1)

/-- Regex `(@\w+(?:\([^)]*\))?)\s+(?:private\s+)?(?:final\s+)?[\w<>,\s]+\s+{field_name}\s*;`
of `_extract_field_annotations` (`re.MULTILINE` only changes `^`/`$`, which
the pattern does not use). -/
def fieldAnnotPat (fieldName : Str) : Pat :=
  pseq [.grp 1 (pseq [Pat.lit (str "@"), pWordPlus,
      Pat.opt (pseq [Pat.lit (str "("), Pat.star (pcls fun c => !(c == ')')),
        Pat.lit (str ")")])]),
    pWsPlus, Pat.opt (.seq (Pat.lit (str "private")) pWsPlus),
    Pat.opt (.seq (Pat.lit (str "final")) pWsPlus),
    Pat.plus (pcls fieldTypeChar), pWsPlus, Pat.lit fieldName,
    pWsStar, Pat.lit (str ";")]

/-- `EventScanner._extract_field_annotations`. -/
def extractFieldAnnots (content fieldName : Str) : List Str :=
  (reFindAll (fieldAnnotPat fieldName) content).map (reGroup · 1)

/-- `EventScanner._extract_fields`.  Record parameters are split on every
comma (`params.split(',')`), each chunk on whitespace, with the last word the
name and the rest joined by single spaces as the type. -/
def extractFields (content : Str) (isRec : Bool) : List FieldInfo :=
  if isRec then
    match reSearch recordParamsPat content with
    | none => []
    | some env =>
      (splitOnChar ',' (reGroup env 1)).filterMap fun param =>
        let param := pyStrip param
        if param.isEmpty then none
        else
          let parts := pySplitWs param
          if 2 ≤ parts.length then
            some ⟨(parts.getLast?).getD [], joinSpace parts.dropLast, none, []⟩
          else none
  else
    (reFindAll fieldPat content).map fun env =>
      let fieldName := reGroup env 2
      ⟨fieldName, pyStrip (reGroup env 1), extractFieldJavadoc content fieldName,
        extractFieldAnnots content fieldName⟩

/-- Regex `class\s+{class_name}\s+extends\s+([\w<>]+)` of `_extract_extends`. -/
def extendsPat (className : Str) : Pat :=
  pseq [Pat.lit (str "class"), pWsPlus, Pat.lit className, pWsPlus,
    Pat.lit (str "extends"), pWsPlus,
    .grp 1 (Pat.plus (pcls fun c => isWordChar c || c == '<' || c == '>'))]

/-- `EventScanner._extract_extends`. -/
def extractExtends (content className : Str) : Option Str :=
  (reSearch (extendsPat className) content).map (reGroup · 1)

/-- Regex `@(\w+)(?:\([^)]*\))?` of `_extract_class_annotations`; the code
collects `match.group(0)`, hence the outer group 0. -/
def classAnnotPat : Pat :=
  .grp 0 (pseq [Pat.lit (str "@"), .grp 1 pWordPlus,
    Pat.opt (pseq [Pat.lit (str "("), Pat.star (pcls fun c => !(c == ')')),
      Pat.lit (str ")")])])

/-- `EventScanner._extract_class_annotations`: annotations found inside a
500-character lookback window before the class declaration. -/
def extractClassAnnots (content className : Str) : List Str :=
  match reSearchGo (classDeclPat className) 0 content with
  | none => []
  | some r =>
    let beforeClass := (content.take r.1).drop (r.1 - 500)
    (reFindAll classAnnotPat beforeClass).map (reGroup · 0)

/-- The namespace segments recognized as structural context markers. -/
def ctxMarkers : List Str := [str "domain", str "event", str "events"]

/-- The generic segments excluded from the fallback. -/
def genericSegs : List Str :=
  [str "com", str "org", str "net", str "domain", str "event", str "events"]

/-- The `for i, part in enumerate(parts)` loop of `_infer_bounded_context`:
return on the first marker segment at a positive index; a marker at index 0
is skipped and scanning continues. -/
def ctxScanGo (all : List Str) (i : Nat) : List Str → Option Str
  | [] => none
  | p :: rest =>
    if ctxMarkers.contains p && decide (0 < i) then
      some (pyCapitalize (all.getD (i - 1) []))
    else ctxScanGo all (i + 1) rest

/-- `EventScanner._infer_bounded_context`. -/
def inferBoundedContext (package : Str) : Str :=
  let parts := splitOnChar '.' package
  match ctxScanGo parts 0 parts with
  | some ctx => ctx
  | none =>
    let meaningful := parts.filter fun p => !genericSegs.contains p
    match meaningful.getLast? with
    | some m => pyCapitalize m
    | none => str "Unknown"

/-- `EventScanner._parse_event_file` on one file's relative path and content.
All lexical sub-steps are pure, so the `try/except` wrapper never fires. -/
def parseEventFile (filePath content : Str) : Option EventInfo :=
  if !isEventClass content then none
  else
    let package := extractPackage content
    match extractClassName content with
    | none => none
    | some className =>
      let javadoc := extractClassJavadoc content className
      let isRec := containsSub content (str "record " ++ className)
      let fields := extractFields content isRec
      let ext := extractExtends content className
      let anns := extractClassAnnots content className
      some ⟨className, package, filePath, inferBoundedContext package, javadoc,
        fields, ext, anns, isRec⟩

/-- `EventScanner.scan` over an enumerated list of `(path, content)` pairs:
files in event-related packages are parsed and the resulting events appended
in enumeration order. -/
def scanEvents (files : List (Str × Str)) : List EventInfo :=
  files.filterMap fun f => if isEventPackage f.1 then parseEventFile f.1 f.2 else none

/-- The data written by `EventScanner.save_to_json`: the event list in scan
order plus the summary block. -/
structure SavedScan where
  events : List EventInfo
  totalEvents : Nat
  boundedContexts : List Str
deriving DecidableEq, Repr

/-- `EventScanner.save_to_json` (its `json.dump` is a deterministic injective
rendering of this structure, so byte equality of the output file is equality
of this structure). -/
def saveToJson (events : List EventInfo) : SavedScan :=
  ⟨events, events.length, pyDistinct (events.map (·.boundedContext))⟩

/-- Scan followed by serialization: the whole pipeline of `scan_events.py`'s
`main` for a fixed enumerated source tree. -/
def serializeScan (files : List (Str × Str)) : SavedScan :=
  saveToJson (scanEvents files)

end Scan

/-! ## `skills/event-doc-generator/scripts/analyze_publishers.py` — `PublisherAnalyzer` -/

namespace Pub

/-- Dataclass `PublisherInfo` of `analyze_publishers.py`. -/
structure PublisherInfo where
  eventName : Str
  className : Str
  methodName : Str
  filePath : Str
  lineNumber : Nat
  codeSnippet : Str
  package : Str
deriving DecidableEq, Repr

/-- Pattern 1 of `_find_publish_calls`: `\.publishEvent\s*\(\s*new\s+(\w+Event)`. -/
def pubCallPat1 : Pat :=
  pseq [Pat.lit (str ".publishEvent"), pWsStar, Pat.lit (str "("), pWsStar,
    Pat.lit (str "new"), pWsPlus, .grp 1 (.seq pWordPlus (Pat.lit (str "Event")))]

/-- Pattern 2 of `_find_publish_calls`: `\.publish\s*\(\s*new\s+(\w+Event)`. -/
def pubCallPat2 : Pat :=
  pseq [Pat.lit (str ".publish"), pWsStar, Pat.lit (str "("), pWsStar,
    Pat.lit (str "new"), pWsPlus, .grp 1 (.seq pWordPlus (Pat.lit (str "Event")))]

/-- Pattern 3 of `_find_publish_calls`: `publishEvent\s*\(\s*new\s+(\w+Event)`. -/
def pubCallPat3 : Pat :=
  pseq [Pat.lit (str "publishEvent"), pWsStar, Pat.lit (str "("), pWsStar,
    Pat.lit (str "new"), pWsPlus, .grp 1 (.seq pWordPlus (Pat.lit (str "Event")))]

/-- The pattern list of `_find_publish_calls`, in iteration order. -/
def pubCallPats : List Pat := [pubCallPat1, pubCallPat2, pubCallPat3]

/-- Regex `(?:public|private|protected)?\s*(?:static\s+)?(?:\w+\s+)*(\w+)\s*\(`
of `_find_method_name`. -/
def looseMethodPat : Pat :=
  pseq [Pat.opt (Pat.alts [Pat.lit (str "public"), Pat.lit (str "private"),
      Pat.lit (str "protected")]),
    pWsStar, Pat.opt (.seq (Pat.lit (str "static")) pWsPlus),
    Pat.star (.seq pWordPlus pWsPlus), .grp 1 pWordPlus, pWsStar, Pat.lit (str "(")]

/-- `PublisherAnalyzer._find_method_name`: scan backwards starting at
`lines[target_line - 1]` — which is the line of the publish call itself —
and return the first capture of the loose method pattern, else "unknown". -/
def findMethodName (lines : List Str) (targetLine : Nat) : Str :=
  match ((List.range targetLine).reverse.filterMap fun i =>
      (reSearch looseMethodPat (pyStrip (lines.getD i []))).map (reGroup · 1)).head? with
  | some m => m
  | none => str "unknown"

/-- `PublisherAnalyzer._get_code_snippet` with the default `context = 2`. -/
def codeSnippet (lines : List Str) (lineNum : Nat) : Str :=
  let start := lineNum - 2 - 1
  let stop := min lines.length (lineNum + 2)
  joinNl ((List.range' start (stop - start)).map fun i =>
    (if i == lineNum - 1 then str ">>> " else str "    ") ++ lines.getD i [])

/-- `PublisherAnalyzer._find_publish_calls`: for every line (1-based) and
every pattern in order, a separate finding is appended for each pattern that
matches the line. -/
def findPublishCalls (content filePath package className : Str) : List PublisherInfo :=
  let lines := splitLines content
  lines.enum.flatMap fun il =>
    let lineNum := il.1 + 1
    pubCallPats.filterMap fun pat =>
      (reSearch pat il.2).map fun env =>
        ⟨reGroup env 1, className, findMethodName lines lineNum, filePath,
          lineNum, codeSnippet lines lineNum, package⟩

end Pub

/-! ## `skills/event-doc-generator/scripts/analyze_listeners.py` — `ListenerAnalyzer` -/

namespace Lst

/-- Dataclass `ListenerInfo` of `analyze_listeners.py`; `transaction_phase`
defaults to `None` and is `Option`al here. -/
structure ListenerInfo where
  eventName : Str
  className : Str
  methodName : Str
  filePath : Str
  lineNumber : Nat
  package : Str
  isAsync : Bool
  isTransactional : Bool
  transactionPhase : Option Str
  condition : Option Str
  javadoc : Option Str
deriving DecidableEq, Repr

/-- Regex `phase\s*=\s*TransactionPhase\.(\w+)` of `_parse_listener`. -/
def phasePat : Pat :=
  pseq [Pat.lit (str "phase"), pWsStar, Pat.lit (str "="), pWsStar,
    Pat.lit (str "TransactionPhase."), .grp 1 pWordPlus]

/-- Regex `condition\s*=\s*"([^"]+)"` of `_parse_listener`. -/
def condPat : Pat :=
  pseq [Pat.lit (str "condition"), pWsStar, Pat.lit (str "="), pWsStar,
    Pat.lit (str "\""), .grp 1 (Pat.plus (pcls fun c => !(c == '"'))),
    Pat.lit (str "\"")]

/-- Regex `(public|private|protected)\s+\w+\s+\w+\s*\(` locating the method
declaration line. -/
def methodDeclPat : Pat :=
  pseq [.grp 1 (Pat.alts [Pat.lit (str "public"), Pat.lit (str "private"),
      Pat.lit (str "protected")]),
    pWsPlus, pWordPlus, pWsPlus, pWordPlus, pWsStar, Pat.lit (str "(")]

/-- Regex `(public|private|protected)\s+\w+\s+(\w+)\s*\(` extracting the
method name (group 2). -/
def methodNamePat : Pat :=
  pseq [.grp 1 (Pat.alts [Pat.lit (str "public"), Pat.lit (str "private"),
      Pat.lit (str "protected")]),
    pWsPlus, pWordPlus, pWsPlus, .grp 2 pWordPlus, pWsStar, Pat.lit (str "(")]

/-- Regex `\(([^)]+)\)` of `_extract_event_from_parameter`. -/
def paramListPat : Pat :=
  pseq [Pat.lit (str "("), .grp 1 (Pat.plus (pcls fun c => !(c == ')'))),
    Pat.lit (str ")")]

/-- Regex `(\w+Event)\s+\w+` of `_extract_event_from_parameter`. -/
def eventParamPat : Pat :=
  pseq [.grp 1 (.seq pWordPlus (Pat.lit (str "Event"))), pWsPlus, pWordPlus]

/-- Regex `classes\s*=\s*\{?\s*(\w+Event)\.class` of `_parse_listener`
(the optional brace is `Char.ofNat 123`). -/
def classesPat : Pat :=
  pseq [Pat.lit (str "classes"), pWsStar, Pat.lit (str "="), pWsStar,
    Pat.opt (Pat.lit [Char.ofNat 123]), pWsStar,
    .grp 1 (.seq pWordPlus (Pat.lit (str "Event"))), Pat.lit (str ".class")]

/-- Regex `@\w+EventListener\s*\(\s*(\w+Event)\.class` of `_parse_listener`. -/
def singleClassPat : Pat :=
  pseq [Pat.lit (str "@"), pWordPlus, Pat.lit (str "EventListener"), pWsStar,
    Pat.lit (str "("), pWsStar, .grp 1 (.seq pWordPlus (Pat.lit (str "Event"))),
    Pat.lit (str ".class")]

/-- `ListenerAnalyzer._extract_event_from_parameter`. -/
def extractEventFromParameter (methodLine : Str) : Option Str :=
  match reSearch paramListPat methodLine with
  | none => none
  | some env => (reSearch eventParamPat (reGroup env 1)).map (reGroup · 1)

/-- The `while ... not startswith('public')` scan of `_parse_listener` that
also inherits a method-level `@Async`. -/
def asyncScan (acc : Bool) : List Str → Bool
  | [] => acc
  | l :: rest =>
    if (str "public").isPrefixOf (pyStrip l) then acc
    else asyncScan (acc || containsSub l (str "@Async")) rest

/-- Index sequence `range(line_num - 1, max(0, line_num - 20), -1)` of
`_extract_javadoc` (the stop bound is exclusive). -/
def jdIdxs (lineNum : Nat) : List Nat :=
  (List.range' ((lineNum - 20) + 1) ((lineNum - 1) - (lineNum - 20))).reverse

/-- The backward javadoc-collection loop of `_extract_javadoc`: the flag set
at `*/`, the break at `/**`, and `insert(0, ...)` collection in between. -/
def jdLoop (lines : List Str) : Bool → List Str → List Nat → List Str
  | _, acc, [] => acc
  | inJd, acc, i :: rest =>
    let line := pyStrip (lines.getD i [])
    if line == str "*/" then jdLoop lines true acc rest
    else if (str "/**").isPrefixOf line then acc
    else if inJd then
      let line := if (str "*").isPrefixOf line then pyStrip (line.drop 1) else line
      if !line.isEmpty && !((str "@").isPrefixOf line) then
        jdLoop lines inJd (line :: acc) rest
      else jdLoop lines inJd acc rest
    else jdLoop lines inJd acc rest

/-- `ListenerAnalyzer._extract_javadoc`. -/
def extractListenerJavadoc (lines : List Str) (lineNum : Nat) : Option Str :=
  let collected := jdLoop lines false [] (jdIdxs lineNum)
  if collected.isEmpty then none else some (pyStrip (joinSpace collected))

/-- The method-declaration search of `_parse_listener`: the first line index
in `range(start_line + 1, min(start_line + 10, len(lines)))` matching the
declaration pattern.  (The Python code tests the resulting index with
`if not method_line`, but the index is always at least 1 here, so the
`None` case is the only falsy one.) -/
def findMethodLine (lines : List Str) (startLine : Nat) : Option Nat :=
  (List.range' (startLine + 1) (min (startLine + 10) lines.length - (startLine + 1))).find?
    fun j => (reSearch methodDeclPat (lines.getD j [])).isSome

/-- The event-type resolution sub-steps of `_parse_listener`: the method's
parameter list first, then the marker's `classes = ...` argument, then its
single class-reference argument. -/
def resolvedEventAt (lines : List Str) (startLine : Nat) : Option Str :=
  let annotationLine := lines.getD startLine []
  match findMethodLine lines startLine with
  | none => none
  | some j =>
    match extractEventFromParameter (lines.getD j []) with
    | some e => some e
    | none =>
      match reSearch classesPat annotationLine with
      | some env => some (reGroup env 1)
      | none => (reSearch singleClassPat annotationLine).map (reGroup · 1)

/-- `ListenerAnalyzer._parse_listener`. -/
def parseListener (lines : List Str) (startLine : Nat)
    (filePath package className : Str) (hasClassAsync : Bool) : Option ListenerInfo :=
  let annotationLine := lines.getD startLine []
  let isTransactional := containsSub annotationLine (str "@TransactionalEventListener")
  let transactionPhase :=
    if isTransactional then (reSearch phasePat annotationLine).map (reGroup · 1)
    else none
  let condition := (reSearch condPat annotationLine).map (reGroup · 1)
  let isAsync := asyncScan hasClassAsync (lines.drop (startLine + 1))
  match findMethodLine lines startLine with
  | none => none
  | some j =>
    match reSearch methodNamePat (lines.getD j []) with
    | none => none
    | some menv =>
      let methodName := reGroup menv 2
      let eventName :=
        match extractEventFromParameter (lines.getD j []) with
        | some e => some e
        | none =>
          match reSearch classesPat annotationLine with
          | some env => some (reGroup env 1)
          | none => (reSearch singleClassPat annotationLine).map (reGroup · 1)
      match eventName with
      | none => none
      | some ev =>
        some ⟨ev, className, methodName, filePath, startLine + 1, package,
          isAsync, isTransactional, transactionPhase, condition,
          extractListenerJavadoc lines startLine⟩

end Lst

/-! ## Concrete inputs used by the claim theorems and witnesses -/

set_option maxRecDepth 40000

/-- A record-style domain event whose parameter list is exactly
`String orderId, java.util.List<String> items`. -/
def recordEventContent : Str :=
  str "package shop.order.event;\n/** Raised when an order is placed. */\npublic record OrderPlacedEvent(String orderId, java.util.List<String> items)"

/-- A file with one `eventPublisher.publishEvent(new OrderPlacedEvent(id))`
call inside the method `placeOrder`. -/
def publisherDemoContent : Str :=
  str "public class OrderService\n    public void placeOrder(String id)\n        eventPublisher.publishEvent(new OrderPlacedEvent(id));"

/-- The findings of `_find_publish_calls` on `publisherDemoContent`. -/
def publisherDemoFindings : List Pub.PublisherInfo :=
  Pub.findPublishCalls publisherDemoContent (str "OrderService.java")
    (str "shop.order") (str "OrderService")

/-- A transactional listener declaration with no explicit `phase` argument. -/
def transListenerLines : List Str :=
  [str "    @TransactionalEventListener",
   str "    public void handle(OrderPlacedEvent event)"]

/-- A listener declaration whose event type is not resolvable: the parameter
is not `...Event`-typed and the marker carries no class-reference argument. -/
def plainListenerLines : List Str :=
  [str "    @EventListener", str "    public void handle(String message)"]

/-- A second unresolvable listener declaration, used by the C6 witness. -/
def privListenerLines : List Str :=
  [str "@EventListener", str "private void refresh(int count)"]

/-- Two single-event source files living in event packages. -/
def eventFileA : Str × Str :=
  (str "a/event/AEvent.java", str "package a.event;\npublic record AEvent(String x)")

/-- See `eventFileA`. -/
def eventFileB : Str × Str :=
  (str "b/event/BEvent.java", str "package b.event;\npublic record BEvent(String y)")

/-- Eleven public method declarations. -/
def elevenMethodsContent : Str := joinNl (List.replicate 11 (str "public A a("))

/-- Eleven mapping-annotated handler declarations. -/
def elevenHandlersContent : Str :=
  joinNl (List.replicate 11 (str "@GetMapping\npublic A a("))

/-- An empty analyzer state. -/
def st0 : Dfd.AnalyzerState := ⟨[], [], [], []⟩

/-- A controller, a service and a repository wired by dependencies; the
service also declares a dependency naming no known component. -/
def processesDemo : List Dfd.Process :=
  [⟨str "OrderController", str "OrderController", str "c.java", str "controller",
      [], [str "OrderService"]⟩,
   ⟨str "OrderService", str "OrderService", str "s.java", str "service",
      [], [str "OrderRepository", str "MissingClient"]⟩,
   ⟨str "OrderRepository", str "OrderRepository", str "r.java", str "repository",
      [], []⟩]

/-! ## Claim theorems -/

/-- C3: for the tuple/record-style declaration whose parenthesized parameter
list is `String orderId, java.util.List<String> items`, the member extractor
yields exactly two members — `orderId : String` and
`items : java.util.List<String>` — and the scanned event carries exactly
those two members.  (`java.util.List<String>` contains no comma, so the
plain comma split of `_extract_fields` does not cut inside it.) -/
theorem c3_record_members_exact :
    Scan.extractFields recordEventContent true
      = [⟨str "orderId", str "String", none, []⟩,
         ⟨str "items", str "java.util.List<String>", none, []⟩]
    ∧ (Scan.parseEventFile (str "shop/order/event/OrderPlacedEvent.java")
          recordEventContent).map (·.fields)
      = some [⟨str "orderId", str "String", none, []⟩,
              ⟨str "items", str "java.util.List<String>", none, []⟩] := by
  constructor
  · decide
  · decide

/-- C4: on a file whose only publish call is
`eventPublisher.publishEvent(new OrderPlacedEvent(id))` inside the method
`placeOrder`, `_find_publish_calls` emits TWO findings for the single call
(the first and the third pattern of its pattern list both match the line, and
the loop has no break), and each finding's calling-method name is
`publishEvent` — the backward scan of `_find_method_name` starts at the call
line itself, whose call expression matches the loose method pattern — not
`placeOrder`.  The snippets are non-empty as claimed. -/
theorem c4_publish_call_double_count :
    publisherDemoFindings.map (·.eventName)
      = [str "OrderPlacedEvent", str "OrderPlacedEvent"]
    ∧ publisherDemoFindings.map (·.methodName)
      = [str "publishEvent", str "publishEvent"]
    ∧ publisherDemoFindings.map (·.lineNumber) = [3, 3]
    ∧ publisherDemoFindings.all (fun i => !i.codeSnippet.isEmpty) = true := by
  refine ⟨?_, ?_, ?_, ?_⟩ <;> decide

/-- C5: a transactional listener declaration with no explicit `phase`
argument is emitted with `transaction_phase = None`; `_parse_listener` never
substitutes the `AFTER_COMMIT` default that the specification (and the
downstream renderers' `dict.get(..., 'AFTER_COMMIT')` calls) expect. -/
theorem c5_phase_left_absent :
    (Lst.parseListener transListenerLines 0 (str "L.java") (str "shop")
        (str "OrderListener") false).map (·.isTransactional) = some true
    ∧ (Lst.parseListener transListenerLines 0 (str "L.java") (str "shop")
        (str "OrderListener") false).map (·.transactionPhase) = some none
    ∧ (Lst.parseListener transListenerLines 0 (str "L.java") (str "shop")
        (str "OrderListener") false).map (·.eventName)
      = some (str "OrderPlacedEvent")
    ∧ (Lst.parseListener transListenerLines 0 (str "L.java") (str "shop")
        (str "OrderListener") false).map (·.methodName) = some (str "handle") := by
  refine ⟨?_, ?_, ?_, ?_⟩ <;> decide

/-- C6 (counterexample): a method declaration carrying the
`@EventListener` marker whose event type is resolvable neither from the
parameter list nor from the marker's arguments is NOT emitted with an absent
event-type attribute — `_parse_listener` returns `None` and the consumer is
dropped from the output. -/
theorem c6_counterexample_unresolved_dropped :
    containsSub ((plainListenerLines.getD 0 [])) (str "@EventListener") = true
    ∧ Lst.findMethodLine plainListenerLines 0 = some 1
    ∧ Lst.resolvedEventAt plainListenerLines 0 = none
    ∧ Lst.parseListener plainListenerLines 0 (str "L.java") (str "shop")
        (str "OrderListener") false = none := by
  refine ⟨?_, ?_, ?_, ?_⟩ <;> decide

/-- C6 (amended): whenever the event type of a listener declaration cannot
be resolved (from the method parameter, the marker's `classes = ...`
argument, or its single class-reference argument), `_parse_listener` yields
no consumer record at all: the entity is dropped, not emitted with the
attribute left absent. -/
theorem c6_unresolved_event_is_dropped (lines : List Str) (startLine : Nat)
    (filePath package className : Str) (hasClassAsync : Bool)
    (h : Lst.resolvedEventAt lines startLine = none) :
    Lst.parseListener lines startLine filePath package className hasClassAsync = none := by
  unfold Lst.resolvedEventAt at h
  unfold Lst.parseListener
  cases hm : Lst.findMethodLine lines startLine with
  | none => simp
  | some j =>
    simp only [hm] at h ⊢
    cases hs : reSearch Lst.methodNamePat (lines.getD j []) with
    | none => simp
    | some menv =>
      simp only [hs]
      simp only [h]

/-- C6 (witness): the amended theorem applied to a concrete unresolvable
listener declaration. -/
theorem c6_witness :
    Lst.parseListener privListenerLines 0 (str "R.java") (str "billing")
      (str "CacheRefresher") false = none :=
  c6_unresolved_event_is_dropped privListenerLines 0 (str "R.java")
    (str "billing") (str "CacheRefresher") false (by decide)

/-- C7 (counterexample): the serialized scan output is NOT independent of
the file enumeration order — scanning the same two (unchanged) event files
in the two possible orders produces different serialized graphs, because
`save_to_json` writes the event list in scan order (it is not sorted by
name). -/
theorem c7_counterexample_order_dependent :
    Scan.serializeScan [eventFileA, eventFileB]
      ≠ Scan.serializeScan [eventFileB, eventFileA] := by
  decide

/-- C7 (amended): each file's parse depends only on that file's own path and
content, so the scan is a pure function of the enumerated `(path, content)`
sequence — re-running on the identical enumeration reproduces the output
exactly, and permuting the enumeration permutes the extracted entity list —
but the serialized output is only byte-identical for identical enumeration
orders. -/
theorem c7_scan_is_pointwise (files files' : List (Str × Str))
    (h : files.Perm files') :
    (Scan.scanEvents files).Perm (Scan.scanEvents files') := by
  exact h.filterMap _

/-- C7 (witness): the amended theorem applied to the two-file tree in its
two enumeration orders. -/
theorem c7_witness :
    (Scan.scanEvents [eventFileA, eventFileB]).Perm
      (Scan.scanEvents [eventFileB, eventFileA]) :=
  c7_scan_is_pointwise [eventFileA, eventFileB] [eventFileB, eventFileA]
    (List.Perm.swap eventFileB eventFileA [])

/-- The bounded-context grouping function as the claim words it: the
capitalized segment immediately preceding the first marker segment
(`domain` / `event` / `events`) occurring at a position greater than zero;
otherwise the capitalized last segment not in
`{com, org, net, domain, event, events}`; otherwise the sentinel
`"Unknown"`. -/
def specBoundedContext (package : Str) : Str :=
  let parts := splitOnChar '.' package
  match parts.enum.find? fun ip => Scan.ctxMarkers.contains ip.2 && decide (0 < ip.1) with
  | some ip => pyCapitalize (parts.getD (ip.1 - 1) [])
  | none =>
    match (parts.filter fun p => !Scan.genericSegs.contains p).getLast? with
    | some m => pyCapitalize m
    | none => str "Unknown"

/-- The enumeration loop of `_infer_bounded_context` returns exactly the
first indexed marker segment at a positive index. -/
theorem ctxScanGo_eq_find (all : List Str) :
    ∀ (l : List Str) (i : Nat),
      Scan.ctxScanGo all i l
        = ((l.enumFrom i).find? fun ip =>
            Scan.ctxMarkers.contains ip.2 && decide (0 < ip.1)).map
            fun ip => pyCapitalize (all.getD (ip.1 - 1) [])
  | [], i => by simp [Scan.ctxScanGo, List.enumFrom]
  | p :: rest, i => by
    simp only [Scan.ctxScanGo, List.enumFrom, List.find?]
    cases hb : Scan.ctxMarkers.contains p && decide (0 < i) with
    | true => simp [hb]
    | false => simp [hb, ctxScanGo_eq_find all rest (i + 1)]

/-- C8: `_infer_bounded_context` computes, for every namespace string, the
grouping described by the claim — the capitalized segment immediately
preceding the first marker segment (`domain`, `event`, `events`) at a
position greater than zero; otherwise the capitalized last non-generic
segment; otherwise `"Unknown"`. -/
theorem c8_bounded_context_grouping (package : Str) :
    Scan.inferBoundedContext package = specBoundedContext package := by
  simp only [Scan.inferBoundedContext, specBoundedContext, List.enum]
  rw [ctxScanGo_eq_find]
  cases ((splitOnChar '.' package).enumFrom 0).find? fun ip =>
      Scan.ctxMarkers.contains ip.2 && decide (0 < ip.1) <;> rfl

/-- The last element of a list is an element of it. -/
theorem getLast?_mem {α : Type} : ∀ {l : List α} {a : α}, l.getLast? = some a → a ∈ l
  | [], _, h => by simp at h
  | [_], _, h => by simp_all
  | x :: y :: rest, a, h => by
    rw [List.getLast?_cons_cons] at h
    exact List.mem_cons_of_mem x (getLast?_mem h)

/-- Every edge emitted by `_infer_data_flows` comes from a process of the
run, a dependency entry resolving in the process map, and carries exactly
the computed flow type. -/
theorem mem_inferDataFlows {ps : List Dfd.Process} {f : Dfd.DataFlow}
    (h : f ∈ Dfd.inferDataFlows ps) :
    ∃ p tgt, p ∈ ps ∧ tgt ∈ ps ∧
      f = ⟨p.className, tgt.className, str "business_data",
            Dfd.flowTypeFor p.ptype tgt.ptype⟩ := by
  unfold Dfd.inferDataFlows at h
  rw [List.mem_flatMap] at h
  obtain ⟨p, hp, hmem⟩ := h
  rw [List.mem_filterMap] at hmem
  obtain ⟨dep, _, heq⟩ := hmem
  rw [Option.map_eq_some'] at heq
  obtain ⟨tgt, hlk, hf⟩ := heq
  refine ⟨p, tgt, hp, ?_, hf.symm⟩
  unfold Dfd.lookupProcess at hlk
  exact (List.mem_filter.mp (getLast?_mem hlk)).1

/-- Case analysis of the flow-type decision of `_infer_data_flows`. -/
theorem flowTypeFor_cases (a b : Str) :
    (a = str "controller" ∧ b = str "service" → Dfd.flowTypeFor a b = str "request")
    ∧ (a = str "service" ∧ b = str "repository" → Dfd.flowTypeFor a b = str "query")
    ∧ (¬(a = str "service" ∧ b = str "repository") → Dfd.flowTypeFor a b = str "request") := by
  refine ⟨?_, ?_, ?_⟩
  · rintro ⟨rfl, rfl⟩
    rfl
  · rintro ⟨rfl, rfl⟩
    rfl
  · intro hne
    unfold Dfd.flowTypeFor
    by_cases h1 : (a == str "controller" && b == str "service") = true
    · rw [if_pos h1]
    · rw [if_neg h1]
      by_cases h2 : (a == str "service" && b == str "repository") = true
      · exact absurd ⟨beq_iff_eq.mp ((Bool.and_eq_true _ _).mp h2).1,
          beq_iff_eq.mp ((Bool.and_eq_true _ _).mp h2).2⟩ hne
      · rw [if_neg h2]

/-- C2: the flow kind of every dependency edge emitted by
`_infer_data_flows` is a function of the endpoint kinds alone: a
controller-kind source with a service-kind destination is labeled
`request`, a service-kind source with a repository-kind destination is
labeled `query`, and every other pairing is labeled `request`. -/
theorem c2_flow_kind_from_endpoint_kinds (ps : List Dfd.Process)
    (f : Dfd.DataFlow) (h : f ∈ Dfd.inferDataFlows ps) :
    ∃ p tgt, p ∈ ps ∧ tgt ∈ ps ∧
      f.fromComponent = p.className ∧ f.toComponent = tgt.className ∧
      (p.ptype = str "controller" ∧ tgt.ptype = str "service" →
        f.flowType = str "request") ∧
      (p.ptype = str "service" ∧ tgt.ptype = str "repository" →
        f.flowType = str "query") ∧
      (¬(p.ptype = str "service" ∧ tgt.ptype = str "repository") →
        f.flowType = str "request") := by
  obtain ⟨p, tgt, hp, ht, hf⟩ := mem_inferDataFlows h
  subst hf
  exact ⟨p, tgt, hp, ht, rfl, rfl,
    (flowTypeFor_cases p.ptype tgt.ptype).1,
    (flowTypeFor_cases p.ptype tgt.ptype).2.1,
    (flowTypeFor_cases p.ptype tgt.ptype).2.2⟩

/-- C2 (witness): the theorem applied to the controller→service edge of the
three-process demo run. -/
theorem c2_witness :
    ∃ p tgt, p ∈ processesDemo ∧ tgt ∈ processesDemo ∧
      (Dfd.DataFlow.mk (str "OrderController") (str "OrderService")
        (str "business_data") (str "request")).fromComponent = p.className ∧
      (Dfd.DataFlow.mk (str "OrderController") (str "OrderService")
        (str "business_data") (str "request")).toComponent = tgt.className ∧
      (p.ptype = str "controller" ∧ tgt.ptype = str "service" →
        (Dfd.DataFlow.mk (str "OrderController") (str "OrderService")
          (str "business_data") (str "request")).flowType = str "request") ∧
      (p.ptype = str "service" ∧ tgt.ptype = str "repository" →
        (Dfd.DataFlow.mk (str "OrderController") (str "OrderService")
          (str "business_data") (str "request")).flowType = str "query") ∧
      (¬(p.ptype = str "service" ∧ tgt.ptype = str "repository") →
        (Dfd.DataFlow.mk (str "OrderController") (str "OrderService")
          (str "business_data") (str "request")).flowType = str "request") :=
  c2_flow_kind_from_endpoint_kinds processesDemo
    (Dfd.DataFlow.mk (str "OrderController") (str "OrderService")
      (str "business_data") (str "request")) (by decide)

/-- C9: both endpoints of every dependency edge in a run's flow list
resolve to a process extracted in the same run — a dependency entry whose
name matches no known process produces no edge, so the edge set never
references an unknown endpoint. -/
theorem c9_edge_endpoints_resolve (ps : List Dfd.Process) (f : Dfd.DataFlow)
    (h : f ∈ Dfd.inferDataFlows ps) :
    (∃ p ∈ ps, p.className = f.fromComponent)
    ∧ (∃ tgt ∈ ps, tgt.className = f.toComponent) := by
  obtain ⟨p, tgt, hp, ht, hf⟩ := mem_inferDataFlows h
  subst hf
  exact ⟨⟨p, hp, rfl⟩, ⟨tgt, ht, rfl⟩⟩

/-- C9 (witness): the theorem applied to the service→repository edge of the
three-process demo run; note the service's dangling `MissingClient`
dependency yields no edge at all. -/
theorem c9_witness :
    (∃ p ∈ processesDemo, p.className =
      (Dfd.DataFlow.mk (str "OrderService") (str "OrderRepository")
        (str "business_data") (str "query")).fromComponent)
    ∧ (∃ tgt ∈ processesDemo, tgt.className =
      (Dfd.DataFlow.mk (str "OrderService") (str "OrderRepository")
        (str "business_data") (str "query")).toComponent) :=
  c9_edge_endpoints_resolve processesDemo
    (Dfd.DataFlow.mk (str "OrderService") (str "OrderRepository")
      (str "business_data") (str "query")) (by decide)

/-- The entity kinds assigned by the lexical classifier. -/
inductive EntityKind where
  | controller
  | service
  | repository
  | persistedEntity
  | externalClient
deriving DecidableEq, Repr

/-- The classifier as the spec words it: a fixed, ordered list of marker
tests — request-handling (controller), then service, then repository, then
persisted-entity, then external-client — returning the first match, `none`
when no marker matches. -/
def specMarkerKind (content : Str) : Option EntityKind :=
  if Dfd.hasControllerMarker content then some .controller
  else if Dfd.hasServiceMarker content then some .service
  else if Dfd.hasRepositoryMarker content then some .repository
  else if Dfd.hasEntityMarker content then some .persistedEntity
  else if Dfd.hasExternalClientMarker content then some .externalClient
  else none

/-- The `type` tags of the `Process` records appended for a given kind. -/
def processTypesFor : EntityKind → List Str
  | .controller => [str "controller"]
  | .service => [str "service"]
  | .repository => [str "repository"]
  | _ => []

/-- The `type` tags of the `DataStore` records appended for a given kind. -/
def storeTypesFor : EntityKind → List Str
  | .persistedEntity => [str "database"]
  | _ => []

/-- The class name `_analyze_file` extracts before dispatching. -/
def classNameOf (content : Str) : Str :=
  match reSearch Dfd.publicClassPat content with
  | some env => reGroup env 1
  | none => []

/-- The `type` tags of the `ExternalEntity` records appended for a given
kind (a controller adds its API-client entry only when the name is new). -/
def externalTypesFor (k : EntityKind) (st : Dfd.AnalyzerState) (content : Str) : List Str :=
  match k with
  | .controller =>
    if (st.externalEntities.map (·.name)).contains (classNameOf content) then []
    else [str "client"]
  | .externalClient => [str "external_service"]
  | _ => []

/-- C1: the classifier assigns at most one entity kind per file, namely the
first marker matching in the fixed order controller, service, repository,
persisted-entity, external-client; a file matching no marker (or lacking a
public class/interface declaration) produces no entity and leaves the run
state unchanged, and in the event-oriented variant a file matching none of
the event-declaration shapes produces no event — in both cases without any
error (the functions are total). -/
theorem c1_classifier_priority_and_totality (st : Dfd.AnalyzerState)
    (filePath content ecPath ecContent : Str) :
    (specMarkerKind content = none → Dfd.analyzeFile st filePath content = st)
    ∧ (reSearch Dfd.publicClassPat content = none →
         Dfd.analyzeFile st filePath content = st)
    ∧ (∀ k, specMarkerKind content = some k →
        Dfd.analyzeFile st filePath content = st
        ∨ ((Dfd.analyzeFile st filePath content).processes.map (·.ptype)
              = st.processes.map (·.ptype) ++ processTypesFor k
            ∧ (Dfd.analyzeFile st filePath content).dataStores.map (·.dtype)
              = st.dataStores.map (·.dtype) ++ storeTypesFor k
            ∧ (Dfd.analyzeFile st filePath content).externalEntities.map (·.etype)
              = st.externalEntities.map (·.etype) ++ externalTypesFor k st content))
    ∧ (Scan.isEventClass ecContent = false → Scan.parseEventFile ecPath ecContent = none) := by
  refine ⟨?_, ?_, ?_, ?_⟩
  · intro h
    unfold specMarkerKind at h
    split_ifs at h with h1 h2 h3 h4 h5
    simp at h
    cases hg : reSearch Dfd.publicClassPat content with
    | none =>
      unfold Dfd.analyzeFile
      rw [hg]
    | some env =>
      simp only [Dfd.analyzeFile, hg, if_neg h1, if_neg h2, if_neg h3, if_neg h4,
        if_neg h5]
  · intro hg
    unfold Dfd.analyzeFile
    rw [hg]
  · intro k h
    cases hg : reSearch Dfd.publicClassPat content with
    | none =>
      left
      unfold Dfd.analyzeFile
      rw [hg]
    | some env =>
      right
      have hcn : classNameOf content = reGroup env 1 := by
        unfold classNameOf
        rw [hg]
      unfold specMarkerKind at h
      simp only [Dfd.analyzeFile, hg]
      split_ifs at h with h1 h2 h3 h4 h5 <;> simp at h
      · subst h
        rw [if_pos h1]
        by_cases hc : ∃ a ∈ st.externalEntities, a.name = reGroup env 1
        · simp [Dfd.analyzeController, externalTypesFor, processTypesFor,
            storeTypesFor, hcn, hc]
        · simp [Dfd.analyzeController, externalTypesFor, processTypesFor,
            storeTypesFor, hcn, hc]
      · subst h
        rw [if_neg h1, if_pos h2]
        simp [Dfd.analyzeService, externalTypesFor, processTypesFor, storeTypesFor]
      · subst h
        rw [if_neg h1, if_neg h2, if_pos h3]
        simp [Dfd.analyzeRepository, externalTypesFor, processTypesFor, storeTypesFor]
      · subst h
        rw [if_neg h1, if_neg h2, if_neg h3, if_pos h4]
        simp [Dfd.analyzeEntity, externalTypesFor, processTypesFor, storeTypesFor]
      · subst h
        rw [if_neg h1, if_neg h2, if_neg h3, if_neg h4, if_pos h5]
        simp [Dfd.analyzeExternalClient, externalTypesFor, processTypesFor,
          storeTypesFor]
  · intro h
    unfold Scan.parseEventFile
    simp [h]

/-- A controller-marked file used by the C1 witness. -/
def ctrlMarkedContent : Str := str "@RestController\npublic class Foo"

/-- An unmarked file used by the C1 witness. -/
def unmarkedContent : Str := str "public class Foo"

/-- C1 (witness): the theorem applied to an unmarked file, a
controller-marked file, and a non-event file. -/
theorem c1_witness :
    (Dfd.analyzeFile st0 (str "A.java") unmarkedContent = st0)
    ∧ (Dfd.analyzeFile st0 (str "A.java") ctrlMarkedContent = st0
        ∨ ((Dfd.analyzeFile st0 (str "A.java") ctrlMarkedContent).processes.map (·.ptype)
              = st0.processes.map (·.ptype) ++ processTypesFor .controller
            ∧ (Dfd.analyzeFile st0 (str "A.java") ctrlMarkedContent).dataStores.map (·.dtype)
              = st0.dataStores.map (·.dtype) ++ storeTypesFor .controller
            ∧ (Dfd.analyzeFile st0 (str "A.java") ctrlMarkedContent).externalEntities.map (·.etype)
              = st0.externalEntities.map (·.etype)
                ++ externalTypesFor .controller st0 ctrlMarkedContent))
    ∧ (Scan.parseEventFile (str "x/event/X.java") unmarkedContent = none) :=
  ⟨(c1_classifier_priority_and_totality st0 (str "A.java") unmarkedContent
      [] []).1 (by decide),
   (c1_classifier_priority_and_totality st0 (str "A.java") ctrlMarkedContent
      [] []).2.2.1 .controller (by decide),
   (c1_classifier_priority_and_totality st0 (str "A.java") unmarkedContent
      (str "x/event/X.java") unmarkedContent).2.2.2 (by decide)⟩

/-- C10: a service-kind process keeps at most the first 10 public method
names found in the file, in source order (`methods[:10]`), while a
controller-kind process keeps the full extracted method list; on files
declaring 11 methods the service list is truncated where the controller
list is not. -/
theorem c10_service_methods_capped (className filePath content : Str)
    (st : Dfd.AnalyzerState) :
    (Dfd.analyzeService className content filePath st).processes
      = st.processes ++ [⟨className, className, filePath, str "service",
          ((reFindAll Dfd.pubMethodPat content).map (reGroup · 1)).take 10,
          (reFindAll Dfd.autowiredPat content).map (reGroup · 1)⟩]
    ∧ (((reFindAll Dfd.pubMethodPat content).map (reGroup · 1)).take 10).length ≤ 10
    ∧ (∃ rest, ((reFindAll Dfd.pubMethodPat content).map (reGroup · 1)).take 10 ++ rest
        = (reFindAll Dfd.pubMethodPat content).map (reGroup · 1))
    ∧ (Dfd.analyzeController className content filePath st).processes
      = st.processes ++ [⟨className, className, filePath, str "controller",
          (reFindAll Dfd.ctrlMethodPat content).map (reGroup · 1),
          (reFindAll Dfd.autowiredPat content).map (reGroup · 1)⟩]
    ∧ ((reFindAll Dfd.pubMethodPat elevenMethodsContent).map (reGroup · 1)).length = 11
    ∧ ((reFindAll Dfd.ctrlMethodPat elevenHandlersContent).map (reGroup · 1)).length = 11 := by
  refine ⟨rfl, ?_, ?_, ?_, ?_, ?_⟩
  · exact List.length_take_le 10 _
  · exact ⟨_, List.take_append_drop 10 _⟩
  · simp only [Dfd.analyzeController]
    split <;> rfl
  · decide
  · decide

end SpecProof
